import Mathlib

/-
Verification of the groovekit-cli repository (Go): a shallow embedding of
the short-ID resolver (src/cmd/jobs.go resolveJobID and its per-resource
copies), the duration formatters (src/cmd/jobs.go formatIncidentDuration,
src/internal/output/format.go FormatDuration), the config loader
(internal/config Load / IsAuthenticated) and the API client error
selection (src/internal/api/client.go doRequest), together with theorems
settling the frozen claims about them.

Go strings are byte sequences; string slicing and prefix comparison in the
resolver are byte-wise, so Go strings are embedded as `List Nat` (one entry
per byte).  The helper `bytes` turns an ASCII Lean string literal into its
byte sequence (for ASCII text, code points and UTF-8 bytes coincide, and
every literal appearing in the embedded code is ASCII).
-/

namespace GroovekitCLI

/-- Byte sequence of an ASCII string literal: each char's code point, which
for ASCII text equals its UTF-8 byte. Used to embed Go string literals. -/
def bytes (s : String) : List Nat := s.data.map Char.toNat

/-! ## Short-ID resolver (src/cmd/jobs.go lines 1087-1115 and the identical
per-resource copies in part_003 resolveCertID, part_005 resolveDnsMonitorID,
part_006 resolveDomainID, monitors resolveMonitorID) -/

/-- Go match condition from the resolver loop:
`len(item.ID) >= len(shortID) && item.ID[:len(shortID)] == shortID`
(byte-wise slicing and comparison). -/
def idMatch (shortID id : List Nat) : Bool :=
  decide (shortID.length ≤ id.length) && decide (id.take shortID.length = shortID)

/-- Error text of `fmt.Errorf("no <noun> found with ID prefix '%s'", shortID)`. -/
def notFoundMsg (noun shortID : List Nat) : List Nat :=
  bytes "no " ++ noun ++ bytes " found with ID prefix \x27" ++ shortID ++ bytes "\x27"

/-- Error text of `fmt.Errorf("ambiguous ID prefix '%s' matches multiple <nounPlural>", shortID)`. -/
def ambiguousMsg (nounPlural shortID : List Nat) : List Nat :=
  bytes "ambiguous ID prefix \x27" ++ shortID ++ bytes "\x27 matches multiple " ++ nounPlural

/-- Error text of `fmt.Errorf("failed to list <listNoun>: %w", err)`. -/
def listFailedMsg (listNoun err : List Nat) : List Nat :=
  bytes "failed to list " ++ listNoun ++ bytes ": " ++ err

/-- The resolver pattern shared verbatim by the five per-resource Go copies
(resolveJobID, resolveCertID, resolveMonitorID, resolveDnsMonitorID,
resolveDomainID); only the nouns in the error texts differ.  The `list()`
network capability is embedded as its outcome `listResult` (the Go call
`client.List...()` returning either an error or the candidate ID slice).

Go control flow, in order: the `len(shortID) >= 32` fast path returns the
input without consulting `listResult`; a failed listing is wrapped; the
match loop appends every candidate passing `idMatch`; zero matches is the
not-found error, more than one is the ambiguous error, and otherwise the
single entry `matches[0]` is returned. -/
def resolveShortID (noun nounPlural listNoun : List Nat)
    (listResult : Except (List Nat) (List (List Nat)))
    (shortID : List Nat) : Except (List Nat) (List Nat) :=
  if 32 ≤ shortID.length then Except.ok shortID
  else
    match listResult with
    | Except.error err => Except.error (listFailedMsg listNoun err)
    | Except.ok items =>
        let matched := items.filter (fun id => idMatch shortID id)
        if matched.length = 0 then
          Except.error (notFoundMsg noun shortID)
        else if 1 < matched.length then
          Except.error (ambiguousMsg nounPlural shortID)
        else
          -- `matches[0]`, the zero-length case being already excluded
          Except.ok (matched.headD [])

/-- resolveJobID from src/cmd/jobs.go lines 1087-1115. -/
def resolveJobID : Except (List Nat) (List (List Nat)) → List Nat → Except (List Nat) (List Nat) :=
  resolveShortID (bytes "job") (bytes "jobs") (bytes "jobs")

/-- resolveDnsMonitorID from src/unnamed/part_005 lines 561-589. -/
def resolveDnsMonitorID : Except (List Nat) (List (List Nat)) → List Nat → Except (List Nat) (List Nat) :=
  resolveShortID (bytes "DNS monitor") (bytes "DNS monitors") (bytes "DNS monitors")

/-- resolveDomainID from src/unnamed/part_006 lines 551-579. -/
def resolveDomainID : Except (List Nat) (List (List Nat)) → List Nat → Except (List Nat) (List Nat) :=
  resolveShortID (bytes "domain monitor") (bytes "domain monitors") (bytes "domain monitors")

end GroovekitCLI

open GroovekitCLI

/-- Claim C2: for every shortID of byte length at least 32, the resolver
(any of the five per-resource instances, i.e. any choice of nouns) returns
shortID unchanged, and its result is the same for every candidate-list
outcome, so the `list()` capability is never consulted. -/
theorem resolver_fastPath_skips_list (noun nounPlural listNoun : List Nat)
    (l l2 : Except (List Nat) (List (List Nat))) (shortID : List Nat)
    (h : 32 ≤ shortID.length) :
    resolveShortID noun nounPlural listNoun l shortID = Except.ok shortID ∧
    resolveShortID noun nounPlural listNoun l shortID
      = resolveShortID noun nounPlural listNoun l2 shortID := by
  unfold resolveShortID
  rw [if_pos h, if_pos h]
  exact ⟨rfl, rfl⟩

/-- Witness for C2: a 32-byte shortID is returned as-is by resolveJobID, for
both a failing and a succeeding listing outcome. -/
theorem resolver_fastPath_skips_list_witness :
    32 ≤ (List.replicate 32 97).length ∧
    resolveShortID (bytes "job") (bytes "jobs") (bytes "jobs")
        (Except.error []) (List.replicate 32 97) = Except.ok (List.replicate 32 97) ∧
    resolveShortID (bytes "job") (bytes "jobs") (bytes "jobs")
        (Except.error []) (List.replicate 32 97)
      = resolveShortID (bytes "job") (bytes "jobs") (bytes "jobs")
        (Except.ok [[1], [2]]) (List.replicate 32 97) :=
  ⟨by decide,
   (resolver_fastPath_skips_list _ _ _ (Except.error []) (Except.ok [[1], [2]]) _ (by decide)).1,
   (resolver_fastPath_skips_list _ _ _ (Except.error []) (Except.ok [[1], [2]]) _ (by decide)).2⟩

/-- Claim C3: for every shortID of byte length below 32 and every candidate
list in which exactly one candidate matches the byte-prefix test, the
resolver succeeds with exactly that candidate's full ID, which is an element
of the candidate list and has shortID as a byte prefix. -/
theorem resolver_unique_match (noun nounPlural listNoun : List Nat)
    (items : List (List Nat)) (shortID m : List Nat)
    (hshort : shortID.length < 32)
    (huniq : items.filter (fun id => idMatch shortID id) = [m]) :
    resolveShortID noun nounPlural listNoun (Except.ok items) shortID = Except.ok m ∧
    m ∈ items ∧ shortID <+: m := by
  have hnot : ¬ 32 ≤ shortID.length := by omega
  have hmem : m ∈ items.filter (fun id => idMatch shortID id) := by
    rw [huniq]; exact List.mem_singleton_self m
  refine ⟨?_, List.mem_of_mem_filter hmem, ?_⟩
  · unfold resolveShortID
    rw [if_neg hnot]
    simp [huniq]
  · have hm : idMatch shortID m = true := List.of_mem_filter hmem
    unfold idMatch at hm
    rw [Bool.and_eq_true, decide_eq_true_iff, decide_eq_true_iff] at hm
    rw [← hm.2]
    exact List.take_prefix _ _

/-- Witness for C3: resolving the 2-byte prefix "ab" against candidates
"abc1" and "zzz" yields "abc1". -/
theorem resolver_unique_match_witness :
    (bytes "ab").length < 32 ∧
    resolveShortID (bytes "job") (bytes "jobs") (bytes "jobs")
        (Except.ok [bytes "abc1", bytes "zzz"]) (bytes "ab") = Except.ok (bytes "abc1") ∧
    bytes "abc1" ∈ [bytes "abc1", bytes "zzz"] :=
  ⟨by decide,
   (resolver_unique_match (bytes "job") (bytes "jobs") (bytes "jobs")
      [bytes "abc1", bytes "zzz"] (bytes "ab") (bytes "abc1")
      (by decide) (by decide)).1,
   (resolver_unique_match (bytes "job") (bytes "jobs") (bytes "jobs")
      [bytes "abc1", bytes "zzz"] (bytes "ab") (bytes "abc1")
      (by decide) (by decide)).2.1⟩

/-- Claim C4: for every shortID of byte length below 32 and every candidate
list in which two or more candidates match the byte-prefix test (however
many), the resolver fails with the ambiguous-prefix error, whose text
contains shortID, and returns no candidate's ID. -/
theorem resolver_ambiguous (noun nounPlural listNoun : List Nat)
    (items : List (List Nat)) (shortID : List Nat)
    (hshort : shortID.length < 32)
    (h2 : 2 ≤ (items.filter (fun id => idMatch shortID id)).length) :
    resolveShortID noun nounPlural listNoun (Except.ok items) shortID
      = Except.error (ambiguousMsg nounPlural shortID) ∧
    shortID <:+: ambiguousMsg nounPlural shortID ∧
    ∀ full : List Nat,
      resolveShortID noun nounPlural listNoun (Except.ok items) shortID ≠ Except.ok full := by
  have hnot : ¬ 32 ≤ shortID.length := by omega
  have hmain : resolveShortID noun nounPlural listNoun (Except.ok items) shortID
      = Except.error (ambiguousMsg nounPlural shortID) := by
    unfold resolveShortID
    rw [if_neg hnot]
    have hz : ¬ (items.filter (fun id => idMatch shortID id)).length = 0 := by omega
    have ho : 1 < (items.filter (fun id => idMatch shortID id)).length := by omega
    simp only [hz, if_false, ho, if_true]
  refine ⟨hmain, ?_, ?_⟩
  · exact ⟨bytes "ambiguous ID prefix \x27",
      bytes "\x27 matches multiple " ++ nounPlural, by simp [ambiguousMsg]⟩
  · intro full hfull
    rw [hmain] at hfull
    exact Except.noConfusion hfull

/-- Witness for C4: resolving "ab" against three candidates of which two
match fails with the ambiguous error, which mentions "ab". -/
theorem resolver_ambiguous_witness :
    resolveShortID (bytes "job") (bytes "jobs") (bytes "jobs")
        (Except.ok [bytes "abc1", bytes "abd2", bytes "zzz"]) (bytes "ab")
      = Except.error (ambiguousMsg (bytes "jobs") (bytes "ab")) ∧
    bytes "ab" <:+: ambiguousMsg (bytes "jobs") (bytes "ab") :=
  ⟨(resolver_ambiguous (bytes "job") (bytes "jobs") (bytes "jobs")
      [bytes "abc1", bytes "abd2", bytes "zzz"] (bytes "ab")
      (by decide) (by decide)).1,
   (resolver_ambiguous (bytes "job") (bytes "jobs") (bytes "jobs")
      [bytes "abc1", bytes "abd2", bytes "zzz"] (bytes "ab")
      (by decide) (by decide)).2.1⟩

/-- Claim C5: for every shortID of byte length below 32 and every candidate
list in which no candidate matches the byte-prefix test, the resolver fails
with the not-found error, whose text contains shortID. -/
theorem resolver_not_found (noun nounPlural listNoun : List Nat)
    (items : List (List Nat)) (shortID : List Nat)
    (hshort : shortID.length < 32)
    (hnone : ∀ id ∈ items, idMatch shortID id = false) :
    resolveShortID noun nounPlural listNoun (Except.ok items) shortID
      = Except.error (notFoundMsg noun shortID) ∧
    shortID <:+: notFoundMsg noun shortID := by
  have hnot : ¬ 32 ≤ shortID.length := by omega
  have hfil : items.filter (fun id => idMatch shortID id) = [] := by
    rw [List.filter_eq_nil_iff]
    intro a ha
    simp [hnone a ha]
  constructor
  · unfold resolveShortID
    rw [if_neg hnot]
    simp [hfil]
  · exact ⟨bytes "no " ++ noun ++ bytes " found with ID prefix \x27",
      bytes "\x27", by simp [notFoundMsg]⟩

/-- Witness for C5: resolving "xy" against candidates "abc1" and "zzz" fails
with the not-found error, which mentions "xy". -/
theorem resolver_not_found_witness :
    resolveShortID (bytes "job") (bytes "jobs") (bytes "jobs")
        (Except.ok [bytes "abc1", bytes "zzz"]) (bytes "xy")
      = Except.error (notFoundMsg (bytes "job") (bytes "xy")) ∧
    bytes "xy" <:+: notFoundMsg (bytes "job") (bytes "xy") :=
  ⟨(resolver_not_found (bytes "job") (bytes "jobs") (bytes "jobs")
      [bytes "abc1", bytes "zzz"] (bytes "xy")
      (by decide) (by decide)).1,
   (resolver_not_found (bytes "job") (bytes "jobs") (bytes "jobs")
      [bytes "abc1", bytes "zzz"] (bytes "xy")
      (by decide) (by decide)).2⟩

/-- Claim C9: the empty shortID (length 0, below the 32-byte threshold)
matches every candidate ID, so the resolver fails not-found on an empty
candidate list, returns the single candidate's full ID on a singleton list,
and fails ambiguous on any list of two or more candidates. -/
theorem resolver_empty_shortID (noun nounPlural listNoun : List Nat) :
    (∀ id : List Nat, idMatch [] id = true) ∧
    resolveShortID noun nounPlural listNoun (Except.ok []) []
      = Except.error (notFoundMsg noun []) ∧
    (∀ id : List Nat,
      resolveShortID noun nounPlural listNoun (Except.ok [id]) [] = Except.ok id) ∧
    (∀ (id1 id2 : List Nat) (rest : List (List Nat)),
      resolveShortID noun nounPlural listNoun (Except.ok (id1 :: id2 :: rest)) []
        = Except.error (ambiguousMsg nounPlural [])) := by
  have hall : ∀ id : List Nat, idMatch [] id = true := by
    intro id; simp [idMatch]
  have hlen : ¬ 32 ≤ ([] : List Nat).length := by
    simp only [List.length_nil]; omega
  refine ⟨hall, ?_, ?_, ?_⟩
  · unfold resolveShortID
    rw [if_neg hlen]
    simp
  · intro id
    have hfil : [id].filter (fun i => idMatch [] i) = [id] := by
      rw [List.filter_eq_self]
      intro a _; exact hall a
    unfold resolveShortID
    rw [if_neg hlen]
    simp only [hfil]
    rw [if_neg (show ¬ ([id] : List (List Nat)).length = 0 by simp)]
    rw [if_neg (show ¬ 1 < ([id] : List (List Nat)).length by simp)]
    rfl
  · intro id1 id2 rest
    have hfil : (id1 :: id2 :: rest).filter (fun id => idMatch [] id)
        = id1 :: id2 :: rest := by
      rw [List.filter_eq_self]
      intro a _; exact hall a
    unfold resolveShortID
    rw [if_neg hlen]
    simp only [hfil]
    rw [if_neg (show ¬ (id1 :: id2 :: rest).length = 0 by
          simp only [List.length_cons]; omega)]
    rw [if_pos (show 1 < (id1 :: id2 :: rest).length by
          simp only [List.length_cons]; omega)]

namespace GroovekitCLI

/-! ## Incident duration formatter (src/cmd/jobs.go lines 1118-1132)

The Go function takes a float64 and formats with `%.0f` / `%.1f`, which
round to nearest with ties to even.  It is embedded over ℚ; on inputs for
which every intermediate value (the divisions by 60 and 24) is exactly
representable in float64 — in particular all the whole-second inputs of the
claims — the rational computation agrees with the float64 one. -/

/-- Round to the nearest integer, ties to the even integer: the rounding
performed by Go's `%.0f` (applied to the value scaled by 10 for `%.1f`). -/
def roundHalfToEven (q : ℚ) : ℤ :=
  if q - ⌊q⌋ < 1/2 then ⌊q⌋
  else if 1/2 < q - ⌊q⌋ then ⌊q⌋ + 1
  else if 2 ∣ ⌊q⌋ then ⌊q⌋ else ⌊q⌋ + 1

/-- Go `fmt.Sprintf("%.0f", q)`: the rounded value in decimal. -/
def fmtF0 (q : ℚ) : String := toString (roundHalfToEven q)

/-- Go `fmt.Sprintf("%.1f", q)`: one decimal digit, obtained by rounding
10·q to an integer and splitting off its last digit. -/
def fmtF1 (q : ℚ) : String :=
  let n := roundHalfToEven (q * 10)
  if n < 0 then
    "-" ++ toString (n.natAbs / 10) ++ "." ++ toString (n.natAbs % 10)
  else
    toString (n.toNat / 10) ++ "." ++ toString (n.toNat % 10)

/-- formatIncidentDuration from src/cmd/jobs.go lines 1118-1132.  The Go
locals are inlined: `minutes = seconds/60`, `hours = minutes/60`,
`days = hours/24`; every branch guard is a strict `<`. -/
def formatIncidentDuration (seconds : ℚ) : String :=
  if seconds < 60 then fmtF0 seconds ++ "s"
  else if seconds / 60 < 60 then fmtF0 (seconds / 60) ++ "m"
  else if seconds / 60 / 60 < 24 then fmtF1 (seconds / 60 / 60) ++ "h"
  else fmtF1 (seconds / 60 / 60 / 24) ++ "d"

/-! ## Interval formatter (src/internal/output/format.go lines 161-182)

Go `int` arithmetic on the interval; `minutes/60` and `minutes/1440` are
Go's truncating integer division, i.e. `Int.tdiv`. -/

/-- FormatDuration from src/internal/output/format.go lines 161-182, with
the Go locals `hours := minutes / 60` and `days := minutes / 1440`
inlined. -/
def FormatDuration (minutes : ℤ) : String :=
  if minutes < 60 then
    if minutes = 1 then "1 minute" else toString minutes ++ " minutes"
  else if minutes < 1440 then
    if Int.tdiv minutes 60 = 1 then "1 hour"
    else toString (Int.tdiv minutes 60) ++ " hours"
  else
    if Int.tdiv minutes 1440 = 1 then "1 day"
    else toString (Int.tdiv minutes 1440) ++ " days"

theorem roundHalfToEven_intCast (n : ℤ) : roundHalfToEven (n : ℚ) = n := by
  unfold roundHalfToEven
  rw [Int.floor_intCast, sub_self, if_pos (by norm_num : (0 : ℚ) < 1/2)]

theorem fmtF0_natCast (n : ℕ) : fmtF0 (n : ℚ) = toString n := by
  unfold fmtF0
  rw [show ((n : ℚ)) = ((n : ℤ) : ℚ) by push_cast; ring, roundHalfToEven_intCast]
  rfl

theorem fmtF1_natCast (n : ℕ) : fmtF1 (n : ℚ) = toString n ++ "." ++ "0" := by
  unfold fmtF1
  rw [show ((n : ℚ)) * 10 = (((n * 10 : ℕ) : ℤ) : ℚ) by push_cast; ring,
    roundHalfToEven_intCast]
  rw [if_neg (not_lt.mpr (Int.natCast_nonneg _))]
  rw [show (((n * 10 : ℕ) : ℤ)).toNat = n * 10 from Int.toNat_natCast _]
  rw [show n * 10 / 10 = n by omega, show n * 10 % 10 = 0 by omega]
  rfl

end GroovekitCLI

/-- Claim C6: formatIncidentDuration maps 30 to "30s", 120 to "2m", 7200 to
"2.0h" and 172800 to "2.0d"; the threshold comparisons are strict, so the
boundary inputs 60, 3600 and 86400 fall into the larger unit: "1m", "1.0h"
and "1.0d". -/
theorem formatIncidentDuration_spec :
    formatIncidentDuration 30 = "30s" ∧
    formatIncidentDuration 120 = "2m" ∧
    formatIncidentDuration 7200 = "2.0h" ∧
    formatIncidentDuration 172800 = "2.0d" ∧
    formatIncidentDuration 60 = "1m" ∧
    formatIncidentDuration 3600 = "1.0h" ∧
    formatIncidentDuration 86400 = "1.0d" := by
  refine ⟨?_, ?_, ?_, ?_, ?_, ?_, ?_⟩
  · unfold formatIncidentDuration
    rw [if_pos (by norm_num : (30 : ℚ) < 60)]
    rw [show (30 : ℚ) = ((30 : ℕ) : ℚ) by norm_num, fmtF0_natCast]
    decide
  · unfold formatIncidentDuration
    rw [if_neg (by norm_num : ¬ (120 : ℚ) < 60),
      if_pos (by norm_num : (120 : ℚ) / 60 < 60)]
    rw [show (120 : ℚ) / 60 = ((2 : ℕ) : ℚ) by norm_num, fmtF0_natCast]
    decide
  · unfold formatIncidentDuration
    rw [if_neg (by norm_num : ¬ (7200 : ℚ) < 60),
      if_neg (by norm_num : ¬ (7200 : ℚ) / 60 < 60),
      if_pos (by norm_num : (7200 : ℚ) / 60 / 60 < 24)]
    rw [show (7200 : ℚ) / 60 / 60 = ((2 : ℕ) : ℚ) by norm_num, fmtF1_natCast]
    decide
  · unfold formatIncidentDuration
    rw [if_neg (by norm_num : ¬ (172800 : ℚ) < 60),
      if_neg (by norm_num : ¬ (172800 : ℚ) / 60 < 60),
      if_neg (by norm_num : ¬ (172800 : ℚ) / 60 / 60 < 24)]
    rw [show (172800 : ℚ) / 60 / 60 / 24 = ((2 : ℕ) : ℚ) by norm_num, fmtF1_natCast]
    decide
  · unfold formatIncidentDuration
    rw [if_neg (by norm_num : ¬ (60 : ℚ) < 60),
      if_pos (by norm_num : (60 : ℚ) / 60 < 60)]
    rw [show (60 : ℚ) / 60 = ((1 : ℕ) : ℚ) by norm_num, fmtF0_natCast]
    decide
  · unfold formatIncidentDuration
    rw [if_neg (by norm_num : ¬ (3600 : ℚ) < 60),
      if_neg (by norm_num : ¬ (3600 : ℚ) / 60 < 60),
      if_pos (by norm_num : (3600 : ℚ) / 60 / 60 < 24)]
    rw [show (3600 : ℚ) / 60 / 60 = ((1 : ℕ) : ℚ) by norm_num, fmtF1_natCast]
    decide
  · unfold formatIncidentDuration
    rw [if_neg (by norm_num : ¬ (86400 : ℚ) < 60),
      if_neg (by norm_num : ¬ (86400 : ℚ) / 60 < 60),
      if_neg (by norm_num : ¬ (86400 : ℚ) / 60 / 60 < 24)]
    rw [show (86400 : ℚ) / 60 / 60 / 24 = ((1 : ℕ) : ℚ) by norm_num, fmtF1_natCast]
    decide

/-- Claim C7: FormatDuration uses truncating integer division with the
singular form exactly when the computed count is 1: 1 minute, 60 and 90
minutes both give "1 hour", 1440 gives "1 day"; and in general for
60 ≤ minutes < 1440 the printed hour count is minutes/60 truncated toward
zero (floor division on the nonnegative range). -/
theorem FormatDuration_spec :
    FormatDuration 1 = "1 minute" ∧
    FormatDuration 60 = "1 hour" ∧
    FormatDuration 1440 = "1 day" ∧
    FormatDuration 90 = "1 hour" ∧
    ∀ m : ℤ, 60 ≤ m → m < 1440 →
      FormatDuration m
        = (if m.toNat / 60 = 1 then "1 hour" else toString (m.toNat / 60) ++ " hours") := by
  refine ⟨by decide, by decide, by decide, by decide, ?_⟩
  intro m h60 h1440
  obtain ⟨n, rfl⟩ := Int.eq_ofNat_of_zero_le (by omega : (0 : ℤ) ≤ m)
  unfold FormatDuration
  rw [if_neg (show ¬ (n : ℤ) < 60 by omega)]
  rw [if_pos (show (n : ℤ) < 1440 by omega)]
  rw [show Int.tdiv (n : ℤ) 60 = ((n / 60 : ℕ) : ℤ) from rfl]
  rw [show ((n : ℤ)).toNat = n from Int.toNat_natCast n]
  by_cases h1 : n / 60 = 1
  · rw [if_pos (by exact_mod_cast h1), if_pos h1]
  · rw [if_neg (fun hc => h1 (by exact_mod_cast hc)), if_neg h1]
    rfl

/-- Witness for C7: 130 minutes formats as "2 hours" (130/60 truncates
to 2). -/
theorem FormatDuration_spec_witness :
    FormatDuration 130
      = (if (130 : ℤ).toNat / 60 = 1 then "1 hour"
         else toString ((130 : ℤ).toNat / 60) ++ " hours") :=
  FormatDuration_spec.2.2.2.2 130 (by decide) (by decide)

namespace GroovekitCLI

/-! ## Config loading (src/unnamed/part_011 lines 98-171, package config)

`os.Getenv` returns "" for an unset variable and the Go code only ever
compares the result against "", so the environment is embedded as the two
strings the code reads; "" plays the role of unset.  The state of
`~/.groovekit/config.json` is embedded as the outcome of the
`os.ReadFile` + `json.Unmarshal` steps. -/

/-- The persisted configuration (struct Config, part_011 lines 98-102). -/
structure Config where
  apiBaseURL : String
  accessToken : String
  email : String
deriving DecidableEq, Repr

/-- The two environment variables the config package reads. An unset
variable is the empty string, exactly as `os.Getenv` reports it. -/
structure Env where
  groovekitToken : String
  groovekitApiURL : String

/-- Outcome of reading and JSON-decoding the config file in Load:
the file is absent (`os.IsNotExist`), unreadable (other read error),
undecodable (`json.Unmarshal` error), or decoded into a Config. -/
inductive ConfigFileState
  | missing
  | readFailure (msg : String)
  | unmarshalFailure (msg : String)
  | parsed (cfg : Config)

/-- getAPIBaseURL from part_011 lines 137-142: the env override or the
default production URL. -/
def getAPIBaseURL (env : Env) : String :=
  if env.groovekitApiURL ≠ "" then env.groovekitApiURL
  else "https://api.groovekit.com"

/-- Load from part_011 lines 108-134.  A missing file yields the default
config; read and decode failures are returned as errors; otherwise the
decoded config with GROOVEKIT_API_URL taking precedence over the stored
api_base_url (and the default filling in an empty one).  Note that the
function never reads env.groovekitToken. -/
def Load (env : Env) (file : ConfigFileState) : Except String Config :=
  match file with
  | ConfigFileState.missing =>
      Except.ok { apiBaseURL := getAPIBaseURL env, accessToken := "", email := "" }
  | ConfigFileState.readFailure msg => Except.error msg
  | ConfigFileState.unmarshalFailure msg => Except.error msg
  | ConfigFileState.parsed cfg =>
      if env.groovekitApiURL ≠ "" then
        Except.ok { cfg with apiBaseURL := env.groovekitApiURL }
      else if cfg.apiBaseURL = "" then
        Except.ok { cfg with apiBaseURL := getAPIBaseURL env }
      else
        Except.ok cfg

/-- IsAuthenticated from part_011 lines 169-171: `c.AccessToken != ""`. -/
def IsAuthenticated (c : Config) : Bool := c.accessToken != ""

/-! ## API client construction and request authorization
(src/internal/api/client.go) -/

/-- The API client fields used by request sending (client.go lines 16-20;
the *http.Client transport handle carries no data relevant here). -/
structure Client where
  baseURL : String
  token : String
deriving DecidableEq, Repr

/-- NewClient from client.go lines 23-29. -/
def NewClient (cfg : Config) : Client :=
  { baseURL := cfg.apiBaseURL, token := cfg.accessToken }

/-- The Authorization header set by doRequest (client.go lines 89-91):
`Bearer <token>` when the client token is non-empty, no header otherwise. -/
def authHeader (c : Client) : Option String :=
  if c.token != "" then some ("Bearer " ++ c.token) else none

/-- getAuthenticatedClient from src/cmd/jobs.go lines 1055-1066: load the
config, fail on a load error, fail with the not-logged-in message when no
token is present, otherwise build the client.  The function performs no
network request. -/
def getAuthenticatedClient (env : Env) (file : ConfigFileState) : Except String Client :=
  match Load env file with
  | Except.error err => Except.error ("failed to load config: " ++ err)
  | Except.ok cfg =>
      if !(IsAuthenticated cfg) then
        Except.error "not logged in. Run \x27groovekit auth login\x27 first"
      else
        Except.ok (NewClient cfg)

end GroovekitCLI

/-- Claim C1 is a code bug: with GROOVEKIT_TOKEN set to "env-token" and the
config file holding access_token "file-token", Load keeps the file token,
so the bearer credential in the Authorization header is "file-token", not
the environment token.  In general the access token Load returns is exactly
the file's, for every environment: Load never reads GROOVEKIT_TOKEN,
contradicting the spec and the repository's own TestLoad_WithTokenEnvVar /
TestLoad_EnvVarsTakePrecedence. -/
theorem load_ignores_env_token :
    Load { groovekitToken := "env-token", groovekitApiURL := "" }
        (ConfigFileState.parsed
          { apiBaseURL := "https://api.groovekit.com",
            accessToken := "file-token", email := "" })
      = Except.ok
          { apiBaseURL := "https://api.groovekit.com",
            accessToken := "file-token", email := "" } ∧
    authHeader (NewClient
        { apiBaseURL := "https://api.groovekit.com",
          accessToken := "file-token", email := "" })
      = some "Bearer file-token" ∧
    ∀ (env : GroovekitCLI.Env) (cfg : GroovekitCLI.Config),
      ∃ out : GroovekitCLI.Config,
        Load env (ConfigFileState.parsed cfg) = Except.ok out ∧
        out.accessToken = cfg.accessToken := by
  refine ⟨rfl, rfl, ?_⟩
  intro env cfg
  by_cases hurl : env.groovekitApiURL ≠ ""
  · exact ⟨{ cfg with apiBaseURL := env.groovekitApiURL },
      by simp only [Load]; rw [if_pos hurl], rfl⟩
  · by_cases hbase : cfg.apiBaseURL = ""
    · exact ⟨{ cfg with apiBaseURL := getAPIBaseURL env },
        by simp only [Load]; rw [if_neg hurl, if_pos hbase], rfl⟩
    · exact ⟨cfg, by simp only [Load]; rw [if_neg hurl, if_neg hbase], rfl⟩

/-- Claim C10: with the config file absent, Load succeeds with the default
configuration — whose accessToken is always empty, even when
GROOVEKIT_TOKEN is set (the env carve-out of the claim is a code bug, the
same one as C1) — so IsAuthenticated is false and getAuthenticatedClient
fails with the not-logged-in error rather than a configuration error,
without any network call. -/
theorem load_missing_file_defaults :
    (∀ env : GroovekitCLI.Env,
      Load env ConfigFileState.missing
        = Except.ok { apiBaseURL := getAPIBaseURL env, accessToken := "", email := "" }) ∧
    Load { groovekitToken := "env-token", groovekitApiURL := "" } ConfigFileState.missing
      = Except.ok
          { apiBaseURL := "https://api.groovekit.com",
            accessToken := "", email := "" } ∧
    IsAuthenticated
        { apiBaseURL := "https://api.groovekit.com",
          accessToken := "", email := "" }
      = false ∧
    getAuthenticatedClient { groovekitToken := "env-token", groovekitApiURL := "" }
        ConfigFileState.missing
      = Except.error "not logged in. Run \x27groovekit auth login\x27 first" :=
  ⟨fun _ => rfl, rfl, rfl, rfl⟩

namespace GroovekitCLI

/-! ## doRequest error selection (src/internal/api/client.go lines 99-129)

The response body is a Go byte string, embedded as `List Nat` like the
resolver's strings.  `json.Unmarshal(bodyBytes, &errResp)` is an external
decoder; it is embedded as a parameter `unmarshalErr` giving, per body,
either the decoded `{error, message}` pair (Go err == nil) or none (a
decode failure).  `http.StatusText` is likewise a parameter mapping a
status code to its generic phrase. -/

/-- The anonymous struct doRequest decodes an error body into
(client.go lines 110-113); a field absent from the JSON is left "". -/
structure ErrResp where
  error : List Nat
  message : List Nat

/-- A received HTTP response, reduced to the two fields the non-2xx branch
of doRequest reads. -/
structure HttpResponse where
  statusCode : ℤ
  body : List Nat

/-- Go `strings.Contains(l, sub)`: some slice of l starts with sub. -/
def containsSub (sub : List Nat) : List Nat → Bool
  | [] => sub.isEmpty
  | a :: l => idMatch sub (a :: l) || containsSub sub l

/-- The HTML sniff from client.go line 104:
`len(bodyStr) > 0 && (bodyStr[0] == '<' || strings.Contains(bodyStr, "<!DOCTYPE"))`;
60 is the byte of the opening angle bracket. -/
def looksLikeHTML (body : List Nat) : Bool :=
  decide (0 < body.length) &&
    (decide (body.headD 0 = 60) || containsSub (bytes "<!DOCTYPE") body)

/-- Error text of `fmt.Errorf("API error (status %d): %s", code, detail)`. -/
def apiErrorText (code : ℤ) (detail : List Nat) : List Nat :=
  bytes "API error (status " ++ bytes (toString code) ++ bytes "): " ++ detail

/-- The message chosen by the non-2xx branch of doRequest (client.go lines
100-128), with Go's early returns rendered as nested alternatives: the HTML
sniff substitutes the generic status phrase; otherwise a decoded non-empty
`error` then `message` field is used; otherwise the raw body when shorter
than 200 bytes; otherwise the generic status phrase. -/
def non2xxErrorMsg (statusTextOf : ℤ → List Nat)
    (unmarshalErr : List Nat → Option ErrResp)
    (code : ℤ) (body : List Nat) : List Nat :=
  if looksLikeHTML body then apiErrorText code (statusTextOf code)
  else
    match unmarshalErr body with
    | some e =>
        if e.error ≠ [] then apiErrorText code e.error
        else if e.message ≠ [] then apiErrorText code e.message
        else if body.length < 200 then apiErrorText code body
        else apiErrorText code (statusTextOf code)
    | none =>
        if body.length < 200 then apiErrorText code body
        else apiErrorText code (statusTextOf code)

/-- doRequest from client.go lines 73-138, reduced to its response handling:
a status outside 200-299 produces the selected error, anything else
succeeds (the body decode of a 2xx result is out of scope here). -/
def doRequest (statusTextOf : ℤ → List Nat)
    (unmarshalErr : List Nat → Option ErrResp)
    (resp : HttpResponse) : Except (List Nat) Unit :=
  if resp.statusCode < 200 ∨ 300 ≤ resp.statusCode then
    Except.error (non2xxErrorMsg statusTextOf unmarshalErr resp.statusCode resp.body)
  else
    Except.ok ()

end GroovekitCLI

/-- Claim C8: for every response with status outside 200-299, doRequest
returns an error, and its message is selected by the spec's policy: an
HTML-looking body is never echoed (the generic status phrase is used
instead, whatever the body's content); otherwise a decoded non-empty
`error` or `message` JSON field is used when present; otherwise the raw
body when it is short (under 200 bytes); otherwise the generic status
phrase. -/
theorem doRequest_non2xx_policy (statusTextOf : ℤ → List Nat)
    (unmarshalErr : List Nat → Option GroovekitCLI.ErrResp)
    (resp : GroovekitCLI.HttpResponse)
    (h : resp.statusCode < 200 ∨ 300 ≤ resp.statusCode) :
    (∃ msg : List Nat,
      doRequest statusTextOf unmarshalErr resp = Except.error msg) ∧
    (looksLikeHTML resp.body = true →
      doRequest statusTextOf unmarshalErr resp
        = Except.error (apiErrorText resp.statusCode (statusTextOf resp.statusCode))) ∧
    (∀ e : GroovekitCLI.ErrResp, looksLikeHTML resp.body = false →
      unmarshalErr resp.body = some e → e.error ≠ [] →
      doRequest statusTextOf unmarshalErr resp
        = Except.error (apiErrorText resp.statusCode e.error)) ∧
    (∀ e : GroovekitCLI.ErrResp, looksLikeHTML resp.body = false →
      unmarshalErr resp.body = some e → e.error = [] → e.message ≠ [] →
      doRequest statusTextOf unmarshalErr resp
        = Except.error (apiErrorText resp.statusCode e.message)) ∧
    (looksLikeHTML resp.body = false →
      (unmarshalErr resp.body = none ∨
        ∃ e : GroovekitCLI.ErrResp,
          unmarshalErr resp.body = some e ∧ e.error = [] ∧ e.message = []) →
      resp.body.length < 200 →
      doRequest statusTextOf unmarshalErr resp
        = Except.error (apiErrorText resp.statusCode resp.body)) ∧
    (looksLikeHTML resp.body = false →
      (unmarshalErr resp.body = none ∨
        ∃ e : GroovekitCLI.ErrResp,
          unmarshalErr resp.body = some e ∧ e.error = [] ∧ e.message = []) →
      200 ≤ resp.body.length →
      doRequest statusTextOf unmarshalErr resp
        = Except.error (apiErrorText resp.statusCode (statusTextOf resp.statusCode)))
    := by
  have hreq : doRequest statusTextOf unmarshalErr resp
      = Except.error (non2xxErrorMsg statusTextOf unmarshalErr
          resp.statusCode resp.body) := by
    unfold doRequest
    rw [if_pos h]
  refine ⟨⟨_, hreq⟩, ?_, ?_, ?_, ?_, ?_⟩
  · intro hhtml
    rw [hreq]
    unfold non2xxErrorMsg
    rw [if_pos hhtml]
  · intro e hhtml hum herr
    rw [hreq]
    unfold non2xxErrorMsg
    rw [Bool.eq_false_iff] at hhtml
    rw [if_neg (by simpa using hhtml)]
    simp only [hum]
    rw [if_pos herr]
  · intro e hhtml hum herr hmsg
    rw [hreq]
    unfold non2xxErrorMsg
    rw [Bool.eq_false_iff] at hhtml
    rw [if_neg (by simpa using hhtml)]
    simp only [hum]
    rw [if_neg (not_not_intro herr), if_pos hmsg]
  · intro hhtml hum hlen
    rw [hreq]
    unfold non2xxErrorMsg
    rw [Bool.eq_false_iff] at hhtml
    rw [if_neg (by simpa using hhtml)]
    rcases hum with hnone | ⟨e, hsome, he, hm⟩
    · simp only [hnone]
      rw [if_pos hlen]
    · simp only [hsome]
      rw [if_neg (not_not_intro he), if_neg (not_not_intro hm), if_pos hlen]
  · intro hhtml hum hlen
    rw [hreq]
    unfold non2xxErrorMsg
    rw [Bool.eq_false_iff] at hhtml
    rw [if_neg (by simpa using hhtml)]
    rcases hum with hnone | ⟨e, hsome, he, hm⟩
    · simp only [hnone]
      rw [if_neg (by omega)]
    · simp only [hsome]
      rw [if_neg (not_not_intro he), if_neg (not_not_intro hm),
        if_neg (by omega)]

/-- Witness for C8: a 404 with the short non-HTML body "boom" and a failing
JSON decode is reported with the raw body; a 500 with an HTML body is
reported with the generic status phrase instead of the body. -/
theorem doRequest_non2xx_policy_witness :
    doRequest (fun _ => bytes "Not Found") (fun _ => none)
        { statusCode := 404, body := bytes "boom" }
      = Except.error (apiErrorText 404 (bytes "boom")) ∧
    doRequest (fun _ => bytes "Internal Server Error") (fun _ => none)
        { statusCode := 500, body := bytes "<html>oops</html>" }
      = Except.error (apiErrorText 500 (bytes "Internal Server Error")) :=
  ⟨(doRequest_non2xx_policy (fun _ => bytes "Not Found") (fun _ => none)
      { statusCode := 404, body := bytes "boom" }
      (Or.inr (by decide))).2.2.2.2.1 (by decide) (Or.inl rfl) (by decide),
   (doRequest_non2xx_policy (fun _ => bytes "Internal Server Error") (fun _ => none)
      { statusCode := 500, body := bytes "<html>oops</html>" }
      (Or.inr (by decide))).2.1 (by decide)⟩
